import Mathlib

/-!
Shallow embedding of the render-resource lifecycle and per-frame update loop
of the glsl-template repository (TypeScript), together with proofs of the
claims the specification makes about it.

Numbers that the source manipulates as JS numbers are modelled as exact
rationals (ℚ); handles to GPU objects are modelled as natural numbers;
nullable values are `Option`; thrown exceptions are `Except.error`.
-/

namespace GLSL

/-! ### Shared Runtime State (`Common`, src/unnamed/part_000)

The clock fields of the `Common` singleton and its `update` method.
`update` reads `Date.now()`; we pass that reading in as the argument `now`
(milliseconds, as in the source).
-/

structure CommonState where
  previousTime : ℚ
  currentTime : ℚ
  time : ℚ
  timeScale : ℚ
deriving Repr, DecidableEq

namespace Common

/-- Embeds `Common.update` (part_000 lines 116–122):
`deltaTime = (now - previousTime) / 1000; currentTime += deltaTime;
time += deltaTime * timeScale; previousTime = now`. -/
def update (st : CommonState) (now : ℚ) : CommonState :=
  let deltaTime := (now - st.previousTime) / 1000
  { st with
    currentTime := st.currentTime + deltaTime
    time := st.time + deltaTime * st.timeScale
    previousTime := now }

/-- A sequence of `update` calls at the given wall-clock readings. -/
def runUpdates (st : CommonState) (ts : List ℚ) : CommonState :=
  ts.foldl update st

/-- Wall-clock readings produced by successive deltas `ds` (milliseconds)
starting from time `t0`: reading i is `t0 + d1 + ... + di`. -/
def cumTimes (t0 : ℚ) : List ℚ → List ℚ
  | [] => []
  | d :: ds => (t0 + d) :: cumTimes (t0 + d) ds

end Common

/-! ### Pointer Tracker (`Pointer`, src/unnamed/part_001) -/

structure PointerCoords where
  x : ℚ
  y : ℚ
deriving Repr, DecidableEq

structure PointerState where
  pointerMoved : Bool
  coords : PointerCoords
  prevCoords : PointerCoords
  diff : PointerCoords
  timer : Option ℕ
deriving Repr, DecidableEq

/-- The surface the pointer is normalized against (`Common.canvas`),
with its pixel dimensions. -/
structure Canvas where
  width : ℚ
  height : ℚ
deriving Repr, DecidableEq

namespace Pointer

/-- Embeds `Pointer.setCoords` (part_001 lines 293–311).  The source reads
the singleton field `Common.canvas`; we pass it in as `canvas`.  A call to
`setTimeout` returns a fresh timer id, passed in as `newTimerId`.
When `Common.canvas` is null the method returns at once, before touching
the timer or any coordinate field. -/
def setCoords (canvas : Option Canvas) (newTimerId : ℕ) (st : PointerState)
    (x y : ℚ) : PointerState :=
  match canvas with
  | none => st
  | some c =>
    let coordsX := (x / c.width) * 2 - 1
    let coordsY := -(y / c.height) * 2 + 1
    { st with
      coords := { x := coordsX, y := coordsY }
      pointerMoved := true
      timer := some newTimerId }

/-- Embeds `Pointer.update` (part_001 lines 341–347):
`diff = coords - prevCoords; prevCoords = { ...coords }`. -/
def update (st : PointerState) : PointerState :=
  { st with
    diff := { x := st.coords.x - st.prevCoords.x, y := st.coords.y - st.prevCoords.y }
    prevCoords := st.coords }

end Pointer

/-! ### GPU Resource Utility (`WebGLUtility`, src/src/scripts/lib/webgl.ts)

A small model of the WebGL context state touched by the framebuffer
helpers: the sets of currently valid (created, not yet deleted) handles,
the current bindings, and the backing-storage dimensions last allocated
for each renderbuffer / texture handle. -/

structure GLState where
  validFramebuffers : List ℕ
  validRenderbuffers : List ℕ
  validTextures : List ℕ
  boundFramebuffer : Option ℕ
  boundRenderbuffer : Option ℕ
  boundTexture : Option ℕ
  renderbufferStorageSize : List (ℕ × ℚ × ℚ)
  textureStorageSize : List (ℕ × ℚ × ℚ)
deriving Repr, DecidableEq

/-- Set the value of key `k` in an association list. -/
def assocSet (l : List (ℕ × ℚ × ℚ)) (k : ℕ) (w h : ℚ) : List (ℕ × ℚ × ℚ) :=
  (k, w, h) :: l.filter (fun p => p.1 ≠ k)

/-- Look up the value of key `k` in an association list. -/
def assocGet (l : List (ℕ × ℚ × ℚ)) (k : ℕ) : Option (ℚ × ℚ) :=
  (l.find? (fun p => p.1 = k)).map (fun p => p.2)

namespace GLState

/-- Models `gl.isFramebuffer(h)`: true iff `h` is a non-null, still-valid handle. -/
def isFramebuffer (st : GLState) (h : Option ℕ) : Bool :=
  match h with
  | some n => st.validFramebuffers.contains n
  | none => false

/-- Models `gl.isRenderbuffer(h)`. -/
def isRenderbuffer (st : GLState) (h : Option ℕ) : Bool :=
  match h with
  | some n => st.validRenderbuffers.contains n
  | none => false

/-- Models `gl.isTexture(h)`. -/
def isTexture (st : GLState) (h : Option ℕ) : Bool :=
  match h with
  | some n => st.validTextures.contains n
  | none => false

/-- Models `gl.bindFramebuffer(gl.FRAMEBUFFER, h)`. -/
def bindFramebuffer (st : GLState) (h : Option ℕ) : GLState :=
  { st with boundFramebuffer := h }

/-- Models `gl.bindRenderbuffer(gl.RENDERBUFFER, h)`. -/
def bindRenderbuffer (st : GLState) (h : Option ℕ) : GLState :=
  { st with boundRenderbuffer := h }

/-- Models `gl.bindTexture(gl.TEXTURE_2D, h)`. -/
def bindTexture (st : GLState) (h : Option ℕ) : GLState :=
  { st with boundTexture := h }

/-- Models `gl.renderbufferStorage(gl.RENDERBUFFER, gl.DEPTH_COMPONENT16, w, h)`:
(re)allocates the storage of the currently bound renderbuffer. -/
def renderbufferStorage (st : GLState) (w h : ℚ) : GLState :=
  match st.boundRenderbuffer with
  | some n =>
    { st with renderbufferStorageSize := assocSet st.renderbufferStorageSize n w h }
  | none => st

/-- Models `gl.texImage2D(gl.TEXTURE_2D, 0, gl.RGBA, w, h, 0, gl.RGBA,
gl.UNSIGNED_BYTE, null)`: (re)allocates the storage of the currently
bound texture. -/
def texImage2D (st : GLState) (w h : ℚ) : GLState :=
  match st.boundTexture with
  | some n =>
    { st with textureStorageSize := assocSet st.textureStorageSize n w h }
  | none => st

/-- Models `gl.deleteFramebuffer(h)`: the handle stops being valid. -/
def deleteFramebufferH (st : GLState) (h : Option ℕ) : GLState :=
  match h with
  | some n => { st with validFramebuffers := st.validFramebuffers.filter (fun m => m ≠ n) }
  | none => st

/-- Models `gl.deleteRenderbuffer(h)`. -/
def deleteRenderbufferH (st : GLState) (h : Option ℕ) : GLState :=
  match h with
  | some n => { st with validRenderbuffers := st.validRenderbuffers.filter (fun m => m ≠ n) }
  | none => st

/-- Models `gl.deleteTexture(h)`. -/
def deleteTextureH (st : GLState) (h : Option ℕ) : GLState :=
  match h with
  | some n => { st with validTextures := st.validTextures.filter (fun m => m ≠ n) }
  | none => st

end GLState

/-- The bundle returned by `createFramebuffer` and consumed by
`resizeFramebuffer` / `deleteFramebuffer`.  Each field is
`Option (Option ℕ)`: the outer layer models whether the JS object has the
property at all (`hasOwnProperty`), the inner layer models a null value. -/
structure FramebufferBundle where
  framebuffer : Option (Option ℕ)
  renderbuffer : Option (Option ℕ)
  texture : Option (Option ℕ)
deriving Repr, DecidableEq

namespace WebGLUtility

/-- The `WebGLUtility` class declares no static field named `buffers`, yet
`resizeFramebuffer` reads `(this as any).buffers.renderbuffer` and
`(this as any).buffers.texture`.  The property access on the class object
yields `undefined`, modelled here as `none`; reading a property of
`undefined` then throws a TypeError at runtime. -/
def buffers : Option FramebufferBundle := none

/-- Embeds `WebGLUtility.resizeFramebuffer` (webgl.ts lines 410–445).
Note that after the `hasOwnProperty` / validity guards on the *argument*
`obj`, the body binds `this.buffers.renderbuffer` and
`this.buffers.texture` — fields of the class object, not of `obj` — before
reallocating storage of whatever is then bound. -/
def resizeFramebuffer (st : GLState) (obj : Option FramebufferBundle)
    (width height : ℚ) : Except String GLState :=
  match obj with
  | none => .ok st
  | some o =>
    let step1 : Except String GLState :=
      if o.renderbuffer.isSome && st.isRenderbuffer o.renderbuffer.join then
        match buffers with
        | none => .error "TypeError: cannot read properties of undefined (reading renderbuffer)"
        | some b =>
          .ok (((st.bindRenderbuffer b.renderbuffer.join)).renderbufferStorage width height)
      else .ok st
    match step1 with
    | .error e => .error e
    | .ok st1 =>
      if o.texture.isSome && st1.isTexture o.texture.join then
        match buffers with
        | none => .error "TypeError: cannot read properties of undefined (reading texture)"
        | some b =>
          .ok (((st1.bindTexture b.texture.join)).texImage2D width height)
      else .ok st1

/-- First statement group of `deleteFramebuffer` (webgl.ts lines
464–471): if the object has a `framebuffer` property holding a valid
framebuffer, unbind the framebuffer target, delete the handle, and null
the field. -/
def deleteStepFramebuffer (p : GLState × FramebufferBundle) :
    GLState × FramebufferBundle :=
  if p.2.framebuffer.isSome && p.1.isFramebuffer p.2.framebuffer.join then
    (((p.1.bindFramebuffer none)).deleteFramebufferH p.2.framebuffer.join,
     { p.2 with framebuffer := some none })
  else p

/-- Second statement group (webgl.ts lines 473–480), for the
`renderbuffer` field. -/
def deleteStepRenderbuffer (p : GLState × FramebufferBundle) :
    GLState × FramebufferBundle :=
  if p.2.renderbuffer.isSome && p.1.isRenderbuffer p.2.renderbuffer.join then
    (((p.1.bindRenderbuffer none)).deleteRenderbufferH p.2.renderbuffer.join,
     { p.2 with renderbuffer := some none })
  else p

/-- Third statement group (webgl.ts lines 482–486), for the `texture`
field. -/
def deleteStepTexture (p : GLState × FramebufferBundle) :
    GLState × FramebufferBundle :=
  if p.2.texture.isSome && p.1.isTexture p.2.texture.join then
    (((p.1.bindTexture none)).deleteTextureH p.2.texture.join,
     { p.2 with texture := some none })
  else p

/-- Embeds `WebGLUtility.deleteFramebuffer` (webgl.ts lines 452–489).
For each of the three fields: if the object has the property and the
handle is still a valid object of the right kind, unbind that target,
delete the handle, and null the field.  Returns the final context state
and the mutated bundle.  (The trailing `obj = null as any` only rebinds
the local parameter and has no observable effect.) -/
def deleteFramebuffer (st : GLState) (obj : Option FramebufferBundle) :
    GLState × Option FramebufferBundle :=
  match obj with
  | none => (st, none)
  | some o =>
    let p := deleteStepTexture (deleteStepRenderbuffer (deleteStepFramebuffer (st, o)))
    (p.1, some p.2)

end WebGLUtility

/-- The record returned by `getWebGLExtensions`: each field is the
extension object (opaque, here `Unit`) or null. -/
structure WebGLExtensions where
  elementIndexUint : Option Unit
  textureFloat : Option Unit
  textureHalfFloat : Option Unit
deriving Repr, DecidableEq

/-- GPU calls issued by the index-buffer allocator, in order. -/
inductive GpuCall where
  | createBuffer
  | bindElementArrayBuffer (h : Option ℕ)
  | bufferDataUint32 (data : List ℤ)
deriving Repr, DecidableEq

namespace WebGLUtility

/-- Embeds `WebGLUtility.createIboInt` (webgl.ts lines 178–193).  The
buffer allocation by the context is abstracted as `bufferFromGl` (what
`gl.createBuffer()` would return).  The second component is the ordered
trace of GPU calls issued. -/
def createIboInt (ext : Option WebGLExtensions) (data : List ℤ)
    (bufferFromGl : Option ℕ) : Except String ℕ × List GpuCall :=
  match ext with
  | none => (.error "element index Uint not supported", [])
  | some e =>
    match e.elementIndexUint with
    | none => (.error "element index Uint not supported", [])
    | some _ =>
      match bufferFromGl with
      | none => (.error "Failed to create buffer", [.createBuffer])
      | some ibo =>
        (.ok ibo,
         [.createBuffer, .bindElementArrayBuffer (some ibo), .bufferDataUint32 data,
          .bindElementArrayBuffer none])

end WebGLUtility

/-! ### Shader Program Wrapper (`ShaderProgram`, src/src/scripts/lib/webgl.ts) -/

inductive ShaderStage where
  | vertex
  | fragment
deriving Repr, DecidableEq

/-- GPU interactions performed while constructing a `ShaderProgram`,
in order. -/
inductive ProgramGpuCall where
  | compile (stage : ShaderStage)
  | link
  | linkTransformFeedback
  | attribLocationQuery (name : String)
  | uniformLocationQuery (name : String)
deriving Repr, DecidableEq

/-- The context-dependent outcomes of the GPU operations the constructor
performs, abstracted as functions: `createShader` / `createProgram` /
`createTransformFeedbackProgram` return a handle or null (compile or link
failure), and location queries resolve names against the linked program
(`getAttribLocation` returns −1 for an unknown name, `getUniformLocation`
returns null). -/
structure GPUEnv where
  isWebGL2 : Bool
  createShader : String → ShaderStage → Option ℕ
  createProgram : ℕ → ℕ → Option ℕ
  createTransformFeedbackProgram : ℕ → ℕ → List String → Option ℕ
  getAttribLocation : ℕ → String → ℤ
  getUniformLocation : ℕ → String → Option ℕ

/-- The options record passed to the `ShaderProgram` constructor.  In the source the
field named `attribute` is spelled `attr` here (`attribute` is a Lean
keyword); `uniform`, `type` and `transformFeedbackVaryings` are optional
in the source and hence `Option` here. -/
structure ShaderProgramOptions where
  vertexShaderSource : String
  fragmentShaderSource : String
  attr : List String
  stride : List ℕ
  uniform : Option (List String)
  type : Option (List String)
  transformFeedbackVaryings : Option (List String)

/-- The fields of a successfully constructed `ShaderProgram`. -/
structure ShaderProgram where
  attr : List String
  stride : List ℕ
  uniform : Option (List String)
  type : Option (List String)
  program : ℕ
  attributeLocation : List ℤ
  uniformLocation : Option (List (Option ℕ))

namespace ShaderProgram

/-- The compile/link/locate part of the constructor (webgl.ts lines
582–639), entered only after descriptor validation has passed. -/
def constructCompile (gpu : GPUEnv) (option : ShaderProgramOptions)
    (uniform type : Option (List String)) :
    Except String ShaderProgram × List ProgramGpuCall :=
  let vs := gpu.createShader option.vertexShaderSource ShaderStage.vertex
  let fs := gpu.createShader option.fragmentShaderSource ShaderStage.fragment
  let trace := [ProgramGpuCall.compile .vertex, ProgramGpuCall.compile .fragment]
  match vs, fs with
  | some v, some f =>
    let useTf := gpu.isWebGL2 &&
      (match option.transformFeedbackVaryings with
       | some l => decide (0 < l.length)
       | none => false)
    let prog := if useTf then
        gpu.createTransformFeedbackProgram v f (option.transformFeedbackVaryings.getD [])
      else gpu.createProgram v f
    let trace := trace ++ [if useTf then ProgramGpuCall.linkTransformFeedback else ProgramGpuCall.link]
    match prog with
    | none => (.error "shader program creation failed", trace)
    | some p =>
      let trace := trace ++ option.attr.map ProgramGpuCall.attribLocationQuery
        ++ (uniform.getD []).map ProgramGpuCall.uniformLocationQuery
      (.ok
        { attr := option.attr
          stride := option.stride
          uniform := uniform
          type := type
          program := p
          attributeLocation := option.attr.map (gpu.getAttribLocation p)
          uniformLocation := uniform.map (fun us => us.map (gpu.getUniformLocation p)) },
       trace)
  | _, _ => (.error "shader compilation failed", trace)

/-- Embeds the `ShaderProgram` constructor (webgl.ts lines 551–640).
`this.uniform = option.uniform || null` and `this.type = option.type ||
null` keep the arrays when present (a JS array is always truthy); the two
pairing checks then run before any GPU call.  The second component is the
ordered trace of GPU interactions. -/
def construct (gpu : GPUEnv) (option : ShaderProgramOptions) :
    Except String ShaderProgram × List ProgramGpuCall :=
  if option.attr.length ≠ option.stride.length then
    (.error "attribute or stride does not match", [])
  else
    match option.uniform, option.type with
    | some us, some ts =>
      if us.length ≠ ts.length then (.error "uniform or type does not match", [])
      else constructCompile gpu option (some us) (some ts)
    | some us, none =>
      let _ := us
      (.error "uniform or type does not match", [])
    | none, some ts =>
      let _ := ts
      (.error "uniform or type does not match", [])
    | none, none => constructCompile gpu option none none

end ShaderProgram

/-- Does `sub` occur as a contiguous segment of `l`? -/
def containsSeg (sub : List Char) : List Char → Bool
  | [] => sub.isEmpty
  | c :: rest => sub.isPrefixOf (c :: rest) || containsSeg sub rest

/-- Model of JS `String.prototype.includes`: `s` contains `sub` as a
substring. -/
def strIncludes (s sub : String) : Bool :=
  containsSeg sub.toList s.toList

/-- One `gl[type](...)` uniform-update dispatch: matrix-shaped tags are
called with an explicit `transpose = false` flag, all other tags receive
the value directly. -/
inductive DispatchCall (V : Type) where
  | matrixCall (tag : String) (loc : Option ℕ) (transpose : Bool) (v : V)
  | plainCall (tag : String) (loc : Option ℕ) (v : V)
deriving Repr, DecidableEq

namespace ShaderProgram

/-- The `value.forEach` loop of `setUniform`: dispatches each value with
its parallel tag and location.  Running past the end of the tag or
location list models the `this.type![index]`/`this.uniformLocation![index]`
access yielding `undefined`, which crashes the call; the first component
is the list of dispatches issued before any such crash. -/
def dispatchUniforms {V : Type} :
    List V → List String → List (Option ℕ) → List (DispatchCall V) × Option String
  | [], _, _ => ([], none)
  | v :: vs, t :: ts, l :: ls =>
    let call := if strIncludes t "Matrix" then DispatchCall.matrixCall t l false v
      else DispatchCall.plainCall t l v
    let r := dispatchUniforms vs ts ls
    (call :: r.1, r.2)
  | _ :: _, _, _ => ([], some "TypeError")

/-- Embeds `ShaderProgram.setUniform` (webgl.ts lines 682–700).  Returns
the ordered list of uniform-update dispatches issued and, when the call
throws, the error; a throw from the length check happens before any
dispatch. -/
def setUniform {V : Type} (sp : ShaderProgram) (value : List V) :
    List (DispatchCall V) × Option String :=
  match sp.uniform with
  | none => ([], none)
  | some us =>
    if value.length ≠ us.length then ([], some "value is an invalid")
    else dispatchUniforms value (sp.type.getD []) (sp.uniformLocation.getD [])

end ShaderProgram

/-! ### Shared Runtime State, quad generator (`Common.createPlaneAttribute`) -/

structure PlaneAttribute where
  planePosition : List ℚ
  planeTexCoord : List ℚ
deriving Repr, DecidableEq

/-- Embeds `Common.createPlaneAttribute` (part_000 lines 73–102). -/
def Common.createPlaneAttribute (width height : ℚ) : PlaneAttribute :=
  let x := width * (1 / 2)
  let y := height * (1 / 2)
  { planePosition := [-x, y, 0, x, y, 0, -x, -y, 0, x, -y, 0]
    planeTexCoord := [0, 1, 1, 1, 0, 0, 1, 0] }

/-! ### Output Stage (`Output`, src/unnamed/part_001 lines 17–129) -/

/-- An element of the `vbo` array built by `Output.init`: either a real
buffer handle, or the empty-array placeholder substituted by
`WebGLUtility.createVbo(...) ?? []` when allocation returned null. -/
inductive VboSlot where
  | buffer (h : ℕ)
  | emptyArray
deriving Repr, DecidableEq

/-- The `Geometry` record of `Output` (part_001 lines 10–15). -/
structure Geometry where
  position : List ℚ
  vbo : List VboSlot
  attr : List String
  stride : List ℕ
deriving Repr, DecidableEq

/-- What `Output.init` observably does: the geometry recorded on the
instance, whether it went on to `load()` (shader construction), and
whether anything was reported to the error channel. -/
structure OutputInitResult where
  plane : Option Geometry
  calledLoad : Bool
  errorReported : Bool
deriving Repr, DecidableEq

namespace Output

/-- Embeds `Output.init` (part_001 lines 40–55).  `Common.gl` is passed in
as `gl`; the result of `WebGLUtility.createVbo(Common.gl, planePosition)`
is abstracted as `createVboResult` (a handle, or `none` for the null
returned when buffer allocation fails). -/
def init (gl : Option Unit) (createVboResult : Option ℕ) : OutputInitResult :=
  match gl with
  | none => { plane := none, calledLoad := false, errorReported := false }
  | some _ =>
    let pa := Common.createPlaneAttribute 2 2
    let planeVbo := [match createVboResult with
      | some h => VboSlot.buffer h
      | none => VboSlot.emptyArray]
    { plane := some
        { position := pa.planePosition
          vbo := planeVbo
          attr := ["position"]
          stride := [3] }
      calledLoad := true
      errorReported := false }

/-- The prerequisite check at the top of `Output.render` (part_001
line 93): the frame is skipped with an error exactly when the context,
canvas, shader program or plane geometry is missing. -/
def renderPrereqMissing (gl : Option Unit) (canvas : Option Canvas)
    (shaderProgram : Option Unit) (plane : Option Geometry) : Bool :=
  gl.isNone || canvas.isNone || shaderProgram.isNone || plane.isNone

end Output

/-! ### Application Driver (`WebGLApp`, src/src/scripts/modules/WebGLApp.ts) -/

/-- Observable events of one `render()` invocation:
`schedule` is the `requestAnimationFrame(this.render)` call,
`commonUpdate`/`outputUpdate` are the frame work. -/
inductive FrameEvent where
  | schedule
  | commonUpdate
  | outputUpdate
deriving Repr, DecidableEq

/-- The loop-relevant state: `running` is `Common.running`, `pending`
records whether a frame callback is currently scheduled with the host,
and `framesCompleted` counts fully executed frame bodies. -/
structure AppState where
  running : Bool
  pending : Bool
  framesCompleted : ℕ
deriving Repr, DecidableEq

namespace WebGLApp

/-- Embeds `WebGLApp.render` (WebGLApp.ts lines 44–51) as one host
callback firing: a scheduled callback runs; first, iff `running` is true,
the next frame is scheduled; then the frame work (`Common.update();
this.output.update()`) runs to completion.  `flipDuringWork` models
external code setting the running flag to false at some point during this
work of this frame.  Returns the new state and the ordered event trace. -/
def render (flipDuringWork : Bool) (s : AppState) : AppState × List FrameEvent :=
  if s.pending then
    let sched := s.running
    let s1 : AppState := { s with pending := sched }
    let s2 : AppState := { s1 with
      framesCompleted := s1.framesCompleted + 1
      running := s1.running && !flipDuringWork }
    (s2, (if sched then [FrameEvent.schedule] else [])
      ++ [FrameEvent.commonUpdate, FrameEvent.outputUpdate])
  else (s, [])

/-- Any number of further host ticks, with arbitrary flag flips. -/
def runFrames : AppState → List Bool → AppState
  | s, [] => s
  | s, f :: fs => runFrames (render f s).1 fs

end WebGLApp

/-! ## Auxiliary lemmas -/

theorem runUpdates_cons (st : CommonState) (t : ℚ) (ts : List ℚ) :
    Common.runUpdates st (t :: ts) = Common.runUpdates (Common.update st t) ts :=
  rfl

theorem runUpdates_cumTimes_time (ds : List ℚ) :
    ∀ st : CommonState,
      (Common.runUpdates st (Common.cumTimes st.previousTime ds)).time
        = st.time + st.timeScale * (ds.sum / 1000) := by
  induction ds with
  | nil => intro st; simp [Common.runUpdates, Common.cumTimes]
  | cons d ds ih =>
    intro st
    have hprev : (Common.update st (st.previousTime + d)).previousTime
        = st.previousTime + d := rfl
    have hstep : Common.cumTimes st.previousTime (d :: ds)
        = (st.previousTime + d)
            :: Common.cumTimes (Common.update st (st.previousTime + d)).previousTime ds := by
      rw [hprev]; rfl
    rw [hstep, runUpdates_cons, ih]
    simp only [Common.update, List.sum_cons]
    ring

theorem runUpdates_prev (ts : List ℚ) :
    ∀ st : CommonState,
      (Common.runUpdates st ts).previousTime = ts.getLastD st.previousTime := by
  induction ts with
  | nil => intro st; rfl
  | cons t ts ih =>
    intro st
    rw [runUpdates_cons, ih, List.getLastD_cons]
    rfl

/-! ## Claims -/

/-- C2: over any sequence of `Common.update` calls separated by wall-clock
deltas `ds` (milliseconds, each nonnegative), each call advances the
accumulated time `time` by its delta (in seconds) times `timeScale` and
writes the wall-clock reading taken during that call into `previousTime`;
over the whole sequence, `time` advances by `timeScale × Σ dᵢ / 1000` (so
`timeScale = 1` gives exactly the summed elapsed seconds, `timeScale = 0`
never advances, `timeScale = 2` advances at twice real time), and `time`
is monotonically non-decreasing when `timeScale ≥ 0`. -/
theorem clock_update_spec (st : CommonState) (ds : List ℚ) (now : ℚ)
    (hds : ∀ d ∈ ds, 0 ≤ d) (hscale : 0 ≤ st.timeScale) :
    (Common.update st now).time
        = st.time + ((now - st.previousTime) / 1000) * st.timeScale
    ∧ (Common.update st now).previousTime = now
    ∧ (Common.runUpdates st (Common.cumTimes st.previousTime ds)).time
        = st.time + st.timeScale * (ds.sum / 1000)
    ∧ (Common.runUpdates st (Common.cumTimes st.previousTime ds)).previousTime
        = (Common.cumTimes st.previousTime ds).getLastD st.previousTime
    ∧ st.time ≤ (Common.runUpdates st (Common.cumTimes st.previousTime ds)).time := by
  refine ⟨rfl, rfl, runUpdates_cumTimes_time ds st, runUpdates_prev _ st, ?_⟩
  rw [runUpdates_cumTimes_time ds st]
  have hsum : 0 ≤ ds.sum := List.sum_nonneg hds
  have : 0 ≤ st.timeScale * (ds.sum / 1000) := by positivity
  linarith

/-- Clock state as left by the `Common` constructor with `timeScale`
moved to 2 and a nonzero previous timestamp, used as a concrete input. -/
def clockSt : CommonState :=
  { previousTime := 1000, currentTime := 0, time := 0, timeScale := 2 }

/-- Witness for C2 at a concrete clock state and delta sequence. -/
theorem clock_update_spec_witness :
    (∀ d ∈ ([16, 17] : List ℚ), 0 ≤ d) ∧ 0 ≤ clockSt.timeScale ∧
    ((Common.update clockSt 1016).time
        = clockSt.time + ((1016 - clockSt.previousTime) / 1000) * clockSt.timeScale
     ∧ (Common.update clockSt 1016).previousTime = 1016
     ∧ (Common.runUpdates clockSt (Common.cumTimes clockSt.previousTime [16, 17])).time
        = clockSt.time + clockSt.timeScale * (([16, 17] : List ℚ).sum / 1000)
     ∧ (Common.runUpdates clockSt (Common.cumTimes clockSt.previousTime [16, 17])).previousTime
        = (Common.cumTimes clockSt.previousTime [16, 17]).getLastD clockSt.previousTime
     ∧ clockSt.time
        ≤ (Common.runUpdates clockSt (Common.cumTimes clockSt.previousTime [16, 17])).time) :=
  ⟨by decide, by decide,
   clock_update_spec clockSt [16, 17] 1016 (by decide) (by decide)⟩

/-- C6: with a resolved surface of width `W > 0` and height `H > 0`,
`Pointer.setCoords` maps raw pixel coordinates (0,0) to normalized
(−1, 1), (W, H) to (1, −1), and (W/2, H/2) to (0, 0), and maps any
in-bounds pixel coordinate into [−1, 1] × [−1, 1] with the vertical axis
inverted. -/
theorem setCoords_normalization (W H : ℚ) (st : PointerState) (n : ℕ)
    (hW : 0 < W) (hH : 0 < H) :
    (Pointer.setCoords (some ⟨W, H⟩) n st 0 0).coords = ⟨-1, 1⟩
    ∧ (Pointer.setCoords (some ⟨W, H⟩) n st W H).coords = ⟨1, -1⟩
    ∧ (Pointer.setCoords (some ⟨W, H⟩) n st (W / 2) (H / 2)).coords = ⟨0, 0⟩
    ∧ ∀ x y : ℚ, 0 ≤ x → x ≤ W → 0 ≤ y → y ≤ H →
        -1 ≤ (Pointer.setCoords (some ⟨W, H⟩) n st x y).coords.x
        ∧ (Pointer.setCoords (some ⟨W, H⟩) n st x y).coords.x ≤ 1
        ∧ -1 ≤ (Pointer.setCoords (some ⟨W, H⟩) n st x y).coords.y
        ∧ (Pointer.setCoords (some ⟨W, H⟩) n st x y).coords.y ≤ 1 := by
  have hW0 : W ≠ 0 := ne_of_gt hW
  have hH0 : H ≠ 0 := ne_of_gt hH
  refine ⟨?_, ?_, ?_, ?_⟩
  · simp [Pointer.setCoords]
  · simp only [Pointer.setCoords]
    congr 1 <;> field_simp <;> ring
  · simp only [Pointer.setCoords]
    congr 1 <;> field_simp <;> ring
  · intro x y hx hxW hy hyH
    simp only [Pointer.setCoords]
    have h1 : 0 ≤ x / W := div_nonneg hx (le_of_lt hW)
    have h2 : x / W ≤ 1 := (div_le_one hW).mpr hxW
    have h3 : 0 ≤ y / H := div_nonneg hy (le_of_lt hH)
    have h4 : y / H ≤ 1 := (div_le_one hH).mpr hyH
    refine ⟨by simp; linarith, by simp; linarith, by simp; linarith, by simp; linarith⟩

/-- The pointer state as left by the `Pointer` constructor (part_001
lines 269–278): flags false, all coordinates zero, no timer. -/
def Pointer.initialState : PointerState :=
  { pointerMoved := false
    coords := { x := 0, y := 0 }
    prevCoords := { x := 0, y := 0 }
    diff := { x := 0, y := 0 }
    timer := none }

/-- Witness for C6 on a 2×2 surface. -/
theorem setCoords_normalization_witness :
    (0 : ℚ) < 2 ∧
    ((Pointer.setCoords (some ⟨2, 2⟩) 0 Pointer.initialState 0 0).coords = ⟨-1, 1⟩
     ∧ (Pointer.setCoords (some ⟨2, 2⟩) 0 Pointer.initialState 2 2).coords = ⟨1, -1⟩
     ∧ (Pointer.setCoords (some ⟨2, 2⟩) 0 Pointer.initialState (2 / 2) (2 / 2)).coords = ⟨0, 0⟩
     ∧ ∀ x y : ℚ, 0 ≤ x → x ≤ 2 → 0 ≤ y → y ≤ 2 →
        -1 ≤ (Pointer.setCoords (some ⟨2, 2⟩) 0 Pointer.initialState x y).coords.x
        ∧ (Pointer.setCoords (some ⟨2, 2⟩) 0 Pointer.initialState x y).coords.x ≤ 1
        ∧ -1 ≤ (Pointer.setCoords (some ⟨2, 2⟩) 0 Pointer.initialState x y).coords.y
        ∧ (Pointer.setCoords (some ⟨2, 2⟩) 0 Pointer.initialState x y).coords.y ≤ 1) :=
  ⟨by norm_num,
   setCoords_normalization 2 2 Pointer.initialState 0 (by norm_num) (by norm_num)⟩

/-- C10: a `Pointer.setCoords` call made while `Common.canvas` is still
null returns immediately and leaves the entire pointer state unchanged —
normalized coordinates, previous coordinates, the moving flag, the frame
delta and the decay timer all keep their prior values. -/
theorem setCoords_no_canvas_noop (st : PointerState) (x y : ℚ) (n : ℕ) :
    Pointer.setCoords none n st x y = st
    ∧ (Pointer.setCoords none n st x y).coords = st.coords
    ∧ (Pointer.setCoords none n st x y).prevCoords = st.prevCoords
    ∧ (Pointer.setCoords none n st x y).pointerMoved = st.pointerMoved
    ∧ (Pointer.setCoords none n st x y).diff = st.diff
    ∧ (Pointer.setCoords none n st x y).timer = st.timer :=
  ⟨rfl, rfl, rfl, rfl, rfl, rfl⟩

/-- An extensions record whose 32-bit-index capability is absent. -/
def extNoUint : WebGLExtensions :=
  { elementIndexUint := none, textureFloat := some (), textureHalfFloat := some () }

/-- C7: when the capabilities record is null or its `elementIndexUint`
field is null, `createIboInt` raises `element index Uint not supported`
(it never returns null — its result type has no null) and its GPU call
trace is empty, so no buffer is allocated before the failure. -/
theorem createIboInt_fails_hard (ext : Option WebGLExtensions) (data : List ℤ)
    (buf : Option ℕ)
    (h : ext = none ∨ ∃ e, ext = some e ∧ e.elementIndexUint = none) :
    WebGLUtility.createIboInt ext data buf
      = (.error "element index Uint not supported", []) := by
  rcases h with h | ⟨e, he, hu⟩
  · subst h; rfl
  · subst he
    simp [WebGLUtility.createIboInt, hu]

/-- Witness for C7 on a record lacking only the 32-bit-index capability. -/
theorem createIboInt_fails_hard_witness :
    (some extNoUint = none
      ∨ ∃ e, some extNoUint = some e ∧ e.elementIndexUint = none) ∧
    WebGLUtility.createIboInt (some extNoUint) [0, 1, 2] (some 7)
      = (.error "element index Uint not supported", []) :=
  ⟨Or.inr ⟨extNoUint, rfl, rfl⟩,
   createIboInt_fails_hard (some extNoUint) [0, 1, 2] (some 7)
     (Or.inr ⟨extNoUint, rfl, rfl⟩)⟩

/-- C9: when vertex-buffer allocation returns the null sentinel during
`Output.init` (with a context present), init neither fails nor reports an
error: the null is replaced by the empty-array placeholder in the
vbo list of the geometry, the geometry is recorded as present, initialization
proceeds to `load()` (shader construction), and the prerequisite check of
`Output.render` does not flag the state — the failure is not surfaced at
init. -/
theorem output_init_null_vbo_silent (c : Canvas) :
    (Output.init (some ()) none).calledLoad = true
    ∧ (Output.init (some ()) none).errorReported = false
    ∧ (∃ g : Geometry, (Output.init (some ()) none).plane = some g
        ∧ g.vbo = [VboSlot.emptyArray])
    ∧ Output.renderPrereqMissing (some ()) (some c) (some ())
        (Output.init (some ()) none).plane = false :=
  ⟨rfl, rfl, ⟨_, rfl, rfl⟩, rfl⟩

theorem runFrames_of_not_pending (s : AppState) (h : s.pending = false) :
    ∀ fs : List Bool, WebGLApp.runFrames s fs = s := by
  intro fs
  induction fs with
  | nil => rfl
  | cons f fs ih =>
    have hid : (WebGLApp.render f s).1 = s := by
      simp [WebGLApp.render, h]
    show WebGLApp.runFrames (WebGLApp.render f s).1 fs = s
    rw [hid, ih]

/-- C8: a scheduled `render()` invocation with the running flag true
reschedules the next frame first (before the frame work) and then runs
the full frame work; if the running flag is flipped to false during that
work, the work still completes, the already-scheduled next frame runs its
full work too but schedules nothing (its trace has no schedule event),
and after it no further frame ever executes — one-frame-late
cancellation that never interrupts in-flight work. -/
theorem render_loop_one_frame_late (s : AppState)
    (hrun : s.running = true) (hpend : s.pending = true) :
    (WebGLApp.render true s).2
        = [FrameEvent.schedule, FrameEvent.commonUpdate, FrameEvent.outputUpdate]
    ∧ (WebGLApp.render true s).1.framesCompleted = s.framesCompleted + 1
    ∧ (WebGLApp.render true s).1.pending = true
    ∧ (WebGLApp.render true s).1.running = false
    ∧ ∀ b : Bool,
        (WebGLApp.render b (WebGLApp.render true s).1).1.framesCompleted
            = s.framesCompleted + 2
        ∧ (WebGLApp.render b (WebGLApp.render true s).1).2
            = [FrameEvent.commonUpdate, FrameEvent.outputUpdate]
        ∧ (WebGLApp.render b (WebGLApp.render true s).1).1.pending = false
        ∧ ∀ fs : List Bool,
            WebGLApp.runFrames (WebGLApp.render b (WebGLApp.render true s).1).1 fs
              = (WebGLApp.render b (WebGLApp.render true s).1).1 := by
  have h1 : WebGLApp.render true s
      = ({ running := false, pending := true, framesCompleted := s.framesCompleted + 1 },
         [FrameEvent.schedule, FrameEvent.commonUpdate, FrameEvent.outputUpdate]) := by
    simp [WebGLApp.render, hrun, hpend]
  refine ⟨by rw [h1], by rw [h1], by rw [h1], by rw [h1], ?_⟩
  intro b
  have h2 : WebGLApp.render b (WebGLApp.render true s).1
      = ({ running := false, pending := false, framesCompleted := s.framesCompleted + 2 },
         [FrameEvent.commonUpdate, FrameEvent.outputUpdate]) := by
    rw [h1]
    simp [WebGLApp.render]
  refine ⟨by rw [h2], by rw [h2], by rw [h2], ?_⟩
  intro fs
  rw [h2]
  exact runFrames_of_not_pending _ rfl fs

/-- The driver state just after `setup()`: running, with the first frame
scheduled by the startup `render()` call. -/
def appStartState : AppState :=
  { running := true, pending := true, framesCompleted := 0 }

/-- Witness for C8 from the startup state. -/
theorem render_loop_one_frame_late_witness :
    appStartState.running = true ∧ appStartState.pending = true ∧
    ((WebGLApp.render true appStartState).2
        = [FrameEvent.schedule, FrameEvent.commonUpdate, FrameEvent.outputUpdate]
     ∧ (WebGLApp.render true appStartState).1.framesCompleted
        = appStartState.framesCompleted + 1
     ∧ (WebGLApp.render true appStartState).1.pending = true
     ∧ (WebGLApp.render true appStartState).1.running = false
     ∧ ∀ b : Bool,
        (WebGLApp.render b (WebGLApp.render true appStartState).1).1.framesCompleted
            = appStartState.framesCompleted + 2
        ∧ (WebGLApp.render b (WebGLApp.render true appStartState).1).2
            = [FrameEvent.commonUpdate, FrameEvent.outputUpdate]
        ∧ (WebGLApp.render b (WebGLApp.render true appStartState).1).1.pending = false
        ∧ ∀ fs : List Bool,
            WebGLApp.runFrames (WebGLApp.render b (WebGLApp.render true appStartState).1).1 fs
              = (WebGLApp.render b (WebGLApp.render true appStartState).1).1) :=
  ⟨rfl, rfl, render_loop_one_frame_late appStartState rfl rfl⟩

/-- The guard of the first statement group of `deleteFramebuffer`. -/
def fbGuard (p : GLState × FramebufferBundle) : Bool :=
  p.2.framebuffer.isSome && p.1.isFramebuffer p.2.framebuffer.join

/-- The guard of the second statement group of `deleteFramebuffer`. -/
def rbGuard (p : GLState × FramebufferBundle) : Bool :=
  p.2.renderbuffer.isSome && p.1.isRenderbuffer p.2.renderbuffer.join

/-- The guard of the third statement group of `deleteFramebuffer`. -/
def txGuard (p : GLState × FramebufferBundle) : Bool :=
  p.2.texture.isSome && p.1.isTexture p.2.texture.join

theorem isFramebuffer_congr {st st' : GLState}
    (h : st'.validFramebuffers = st.validFramebuffers) :
    ∀ x, st'.isFramebuffer x = st.isFramebuffer x := by
  intro x; cases x <;> simp [GLState.isFramebuffer, h]

theorem isRenderbuffer_congr {st st' : GLState}
    (h : st'.validRenderbuffers = st.validRenderbuffers) :
    ∀ x, st'.isRenderbuffer x = st.isRenderbuffer x := by
  intro x; cases x <;> simp [GLState.isRenderbuffer, h]

theorem isTexture_congr {st st' : GLState}
    (h : st'.validTextures = st.validTextures) :
    ∀ x, st'.isTexture x = st.isTexture x := by
  intro x; cases x <;> simp [GLState.isTexture, h]

theorem contains_filter_ne (l : List ℕ) (n : ℕ) :
    (l.filter (fun m => m ≠ n)).contains n = false := by
  induction l with
  | nil => rfl
  | cons a l ih =>
    rw [List.filter_cons]
    by_cases h : a = n
    · subst h
      simp [ih]
    · rw [if_pos (by simpa using h), List.contains_cons]
      simp only [ih, Bool.or_false]
      simpa using fun hna => h hna.symm

theorem stepF_of_guard_false {p : GLState × FramebufferBundle}
    (h : fbGuard p = false) : WebGLUtility.deleteStepFramebuffer p = p := by
  unfold WebGLUtility.deleteStepFramebuffer
  have h' : (p.2.framebuffer.isSome && p.1.isFramebuffer p.2.framebuffer.join) = false := h
  rw [h']
  rfl

theorem stepR_of_guard_false {p : GLState × FramebufferBundle}
    (h : rbGuard p = false) : WebGLUtility.deleteStepRenderbuffer p = p := by
  unfold WebGLUtility.deleteStepRenderbuffer
  have h' : (p.2.renderbuffer.isSome && p.1.isRenderbuffer p.2.renderbuffer.join) = false := h
  rw [h']
  rfl

theorem stepT_of_guard_false {p : GLState × FramebufferBundle}
    (h : txGuard p = false) : WebGLUtility.deleteStepTexture p = p := by
  unfold WebGLUtility.deleteStepTexture
  have h' : (p.2.texture.isSome && p.1.isTexture p.2.texture.join) = false := h
  rw [h']
  rfl

theorem stepF_snd_renderbuffer (p : GLState × FramebufferBundle) :
    (WebGLUtility.deleteStepFramebuffer p).2.renderbuffer = p.2.renderbuffer := by
  unfold WebGLUtility.deleteStepFramebuffer; split <;> rfl

theorem stepF_snd_texture (p : GLState × FramebufferBundle) :
    (WebGLUtility.deleteStepFramebuffer p).2.texture = p.2.texture := by
  unfold WebGLUtility.deleteStepFramebuffer; split <;> rfl

theorem stepR_snd_framebuffer (p : GLState × FramebufferBundle) :
    (WebGLUtility.deleteStepRenderbuffer p).2.framebuffer = p.2.framebuffer := by
  unfold WebGLUtility.deleteStepRenderbuffer; split <;> rfl

theorem stepR_snd_texture (p : GLState × FramebufferBundle) :
    (WebGLUtility.deleteStepRenderbuffer p).2.texture = p.2.texture := by
  unfold WebGLUtility.deleteStepRenderbuffer; split <;> rfl

theorem stepT_snd_framebuffer (p : GLState × FramebufferBundle) :
    (WebGLUtility.deleteStepTexture p).2.framebuffer = p.2.framebuffer := by
  unfold WebGLUtility.deleteStepTexture; split <;> rfl

theorem stepT_snd_renderbuffer (p : GLState × FramebufferBundle) :
    (WebGLUtility.deleteStepTexture p).2.renderbuffer = p.2.renderbuffer := by
  unfold WebGLUtility.deleteStepTexture; split <;> rfl

theorem stepF_fst_validRenderbuffers (p : GLState × FramebufferBundle) :
    (WebGLUtility.deleteStepFramebuffer p).1.validRenderbuffers
      = p.1.validRenderbuffers := by
  unfold WebGLUtility.deleteStepFramebuffer
  split
  · cases p.2.framebuffer.join <;> rfl
  · rfl

theorem stepF_fst_validTextures (p : GLState × FramebufferBundle) :
    (WebGLUtility.deleteStepFramebuffer p).1.validTextures = p.1.validTextures := by
  unfold WebGLUtility.deleteStepFramebuffer
  split
  · cases p.2.framebuffer.join <;> rfl
  · rfl

theorem stepR_fst_validFramebuffers (p : GLState × FramebufferBundle) :
    (WebGLUtility.deleteStepRenderbuffer p).1.validFramebuffers
      = p.1.validFramebuffers := by
  unfold WebGLUtility.deleteStepRenderbuffer
  split
  · cases p.2.renderbuffer.join <;> rfl
  · rfl

theorem stepR_fst_validTextures (p : GLState × FramebufferBundle) :
    (WebGLUtility.deleteStepRenderbuffer p).1.validTextures = p.1.validTextures := by
  unfold WebGLUtility.deleteStepRenderbuffer
  split
  · cases p.2.renderbuffer.join <;> rfl
  · rfl

theorem stepT_fst_validFramebuffers (p : GLState × FramebufferBundle) :
    (WebGLUtility.deleteStepTexture p).1.validFramebuffers
      = p.1.validFramebuffers := by
  unfold WebGLUtility.deleteStepTexture
  split
  · cases p.2.texture.join <;> rfl
  · rfl

theorem stepT_fst_validRenderbuffers (p : GLState × FramebufferBundle) :
    (WebGLUtility.deleteStepTexture p).1.validRenderbuffers
      = p.1.validRenderbuffers := by
  unfold WebGLUtility.deleteStepTexture
  split
  · cases p.2.texture.join <;> rfl
  · rfl

theorem stepR_fst_boundFramebuffer (p : GLState × FramebufferBundle) :
    (WebGLUtility.deleteStepRenderbuffer p).1.boundFramebuffer
      = p.1.boundFramebuffer := by
  unfold WebGLUtility.deleteStepRenderbuffer
  split
  · cases p.2.renderbuffer.join <;> rfl
  · rfl

theorem stepT_fst_boundFramebuffer (p : GLState × FramebufferBundle) :
    (WebGLUtility.deleteStepTexture p).1.boundFramebuffer
      = p.1.boundFramebuffer := by
  unfold WebGLUtility.deleteStepTexture
  split
  · cases p.2.texture.join <;> rfl
  · rfl

theorem stepT_fst_boundRenderbuffer (p : GLState × FramebufferBundle) :
    (WebGLUtility.deleteStepTexture p).1.boundRenderbuffer
      = p.1.boundRenderbuffer := by
  unfold WebGLUtility.deleteStepTexture
  split
  · cases p.2.texture.join <;> rfl
  · rfl

theorem fbGuard_stepF_false (p : GLState × FramebufferBundle) :
    fbGuard (WebGLUtility.deleteStepFramebuffer p) = false := by
  unfold WebGLUtility.deleteStepFramebuffer
  split
  · simp [fbGuard, GLState.isFramebuffer]
  · rename_i h
    simp only [fbGuard]
    exact Bool.not_eq_true _ ▸ (Bool.eq_false_iff.mpr h)

theorem rbGuard_stepR_false (p : GLState × FramebufferBundle) :
    rbGuard (WebGLUtility.deleteStepRenderbuffer p) = false := by
  unfold WebGLUtility.deleteStepRenderbuffer
  split
  · simp [rbGuard, GLState.isRenderbuffer]
  · rename_i h
    simp only [rbGuard]
    exact Bool.not_eq_true _ ▸ (Bool.eq_false_iff.mpr h)

theorem txGuard_stepT_false (p : GLState × FramebufferBundle) :
    txGuard (WebGLUtility.deleteStepTexture p) = false := by
  unfold WebGLUtility.deleteStepTexture
  split
  · simp [txGuard, GLState.isTexture]
  · rename_i h
    simp only [txGuard]
    exact Bool.not_eq_true _ ▸ (Bool.eq_false_iff.mpr h)

theorem fbGuard_stepR (p : GLState × FramebufferBundle) :
    fbGuard (WebGLUtility.deleteStepRenderbuffer p) = fbGuard p := by
  simp only [fbGuard, stepR_snd_framebuffer,
    isFramebuffer_congr (stepR_fst_validFramebuffers p)]

theorem fbGuard_stepT (p : GLState × FramebufferBundle) :
    fbGuard (WebGLUtility.deleteStepTexture p) = fbGuard p := by
  simp only [fbGuard, stepT_snd_framebuffer,
    isFramebuffer_congr (stepT_fst_validFramebuffers p)]

theorem rbGuard_stepF (p : GLState × FramebufferBundle) :
    rbGuard (WebGLUtility.deleteStepFramebuffer p) = rbGuard p := by
  simp only [rbGuard, stepF_snd_renderbuffer,
    isRenderbuffer_congr (stepF_fst_validRenderbuffers p)]

theorem rbGuard_stepT (p : GLState × FramebufferBundle) :
    rbGuard (WebGLUtility.deleteStepTexture p) = rbGuard p := by
  simp only [rbGuard, stepT_snd_renderbuffer,
    isRenderbuffer_congr (stepT_fst_validRenderbuffers p)]

theorem txGuard_stepF (p : GLState × FramebufferBundle) :
    txGuard (WebGLUtility.deleteStepFramebuffer p) = txGuard p := by
  simp only [txGuard, stepF_snd_texture,
    isTexture_congr (stepF_fst_validTextures p)]

theorem txGuard_stepR (p : GLState × FramebufferBundle) :
    txGuard (WebGLUtility.deleteStepRenderbuffer p) = txGuard p := by
  simp only [txGuard, stepR_snd_texture,
    isTexture_congr (stepR_fst_validTextures p)]

/-- C5: `deleteFramebuffer` releases each present valid handle of the
bundle — unbinding its target and leaving it invalid — and nulls the
corresponding field; and it is idempotent: a second call on the state and
bundle produced by a first call (including a call on a null bundle)
changes nothing. -/
theorem deleteFramebuffer_release_idempotent (st : GLState) (b : FramebufferBundle) :
    (∀ n : ℕ, b.framebuffer = some (some n) → st.isFramebuffer (some n) = true →
      ∃ b2, (WebGLUtility.deleteFramebuffer st (some b)).2 = some b2
        ∧ b2.framebuffer = some none
        ∧ (WebGLUtility.deleteFramebuffer st (some b)).1.isFramebuffer (some n) = false
        ∧ (WebGLUtility.deleteFramebuffer st (some b)).1.boundFramebuffer = none)
    ∧ (∀ n : ℕ, b.renderbuffer = some (some n) → st.isRenderbuffer (some n) = true →
      ∃ b2, (WebGLUtility.deleteFramebuffer st (some b)).2 = some b2
        ∧ b2.renderbuffer = some none
        ∧ (WebGLUtility.deleteFramebuffer st (some b)).1.isRenderbuffer (some n) = false
        ∧ (WebGLUtility.deleteFramebuffer st (some b)).1.boundRenderbuffer = none)
    ∧ (∀ n : ℕ, b.texture = some (some n) → st.isTexture (some n) = true →
      ∃ b2, (WebGLUtility.deleteFramebuffer st (some b)).2 = some b2
        ∧ b2.texture = some none
        ∧ (WebGLUtility.deleteFramebuffer st (some b)).1.isTexture (some n) = false
        ∧ (WebGLUtility.deleteFramebuffer st (some b)).1.boundTexture = none)
    ∧ (∀ obj : Option FramebufferBundle,
        WebGLUtility.deleteFramebuffer (WebGLUtility.deleteFramebuffer st obj).1
            (WebGLUtility.deleteFramebuffer st obj).2
          = WebGLUtility.deleteFramebuffer st obj) := by
  have hdef : ∀ o : FramebufferBundle,
      WebGLUtility.deleteFramebuffer st (some o)
        = ((WebGLUtility.deleteStepTexture (WebGLUtility.deleteStepRenderbuffer
            (WebGLUtility.deleteStepFramebuffer (st, o)))).1,
           some (WebGLUtility.deleteStepTexture (WebGLUtility.deleteStepRenderbuffer
            (WebGLUtility.deleteStepFramebuffer (st, o)))).2) := fun _ => rfl
  refine ⟨?_, ?_, ?_, ?_⟩
  · -- framebuffer field
    intro n hf hv
    have hF : WebGLUtility.deleteStepFramebuffer (st, b)
        = ((st.bindFramebuffer none).deleteFramebufferH (some n),
           { b with framebuffer := some none }) := by
      unfold WebGLUtility.deleteStepFramebuffer
      simp [hf, hv]
    rw [hdef b]
    refine ⟨_, rfl, ?_, ?_, ?_⟩
    · rw [stepT_snd_framebuffer, stepR_snd_framebuffer, hF]
    · have hval : (WebGLUtility.deleteStepTexture (WebGLUtility.deleteStepRenderbuffer
          (WebGLUtility.deleteStepFramebuffer (st, b)))).1.validFramebuffers
          = ((st.bindFramebuffer none).deleteFramebufferH (some n)).validFramebuffers := by
        rw [stepT_fst_validFramebuffers, stepR_fst_validFramebuffers, hF]
      rw [isFramebuffer_congr hval]
      simp [GLState.isFramebuffer, GLState.deleteFramebufferH, GLState.bindFramebuffer,
        contains_filter_ne]
    · rw [stepT_fst_boundFramebuffer, stepR_fst_boundFramebuffer, hF]
      rfl
  · -- renderbuffer field
    intro n hr hv
    have hfr : (WebGLUtility.deleteStepFramebuffer (st, b)).2.renderbuffer
        = some (some n) := by rw [stepF_snd_renderbuffer]; exact hr
    have hfv : (WebGLUtility.deleteStepFramebuffer (st, b)).1.isRenderbuffer (some n)
        = true := by
      rw [isRenderbuffer_congr (stepF_fst_validRenderbuffers (st, b))]
      exact hv
    have hR : WebGLUtility.deleteStepRenderbuffer (WebGLUtility.deleteStepFramebuffer (st, b))
        = (((WebGLUtility.deleteStepFramebuffer (st, b)).1.bindRenderbuffer
              none).deleteRenderbufferH (some n),
           { (WebGLUtility.deleteStepFramebuffer (st, b)).2 with renderbuffer := some none }) := by
      unfold WebGLUtility.deleteStepRenderbuffer
      simp [hfr, hfv]
    rw [hdef b]
    refine ⟨_, rfl, ?_, ?_, ?_⟩
    · rw [stepT_snd_renderbuffer, hR]
    · have hval : (WebGLUtility.deleteStepTexture (WebGLUtility.deleteStepRenderbuffer
          (WebGLUtility.deleteStepFramebuffer (st, b)))).1.validRenderbuffers
          = (((WebGLUtility.deleteStepFramebuffer (st, b)).1.bindRenderbuffer
              none).deleteRenderbufferH (some n)).validRenderbuffers := by
        rw [stepT_fst_validRenderbuffers, hR]
      rw [isRenderbuffer_congr hval]
      simp [GLState.isRenderbuffer, GLState.deleteRenderbufferH, GLState.bindRenderbuffer,
        contains_filter_ne]
    · rw [stepT_fst_boundRenderbuffer, hR]
      rfl
  · -- texture field
    intro n ht hv
    have hft : (WebGLUtility.deleteStepRenderbuffer
        (WebGLUtility.deleteStepFramebuffer (st, b))).2.texture = some (some n) := by
      rw [stepR_snd_texture, stepF_snd_texture]; exact ht
    have hfv : (WebGLUtility.deleteStepRenderbuffer
        (WebGLUtility.deleteStepFramebuffer (st, b))).1.isTexture (some n) = true := by
      rw [isTexture_congr (stepR_fst_validTextures _),
        isTexture_congr (stepF_fst_validTextures _)]
      exact hv
    have hT : WebGLUtility.deleteStepTexture (WebGLUtility.deleteStepRenderbuffer
          (WebGLUtility.deleteStepFramebuffer (st, b)))
        = (((WebGLUtility.deleteStepRenderbuffer
              (WebGLUtility.deleteStepFramebuffer (st, b))).1.bindTexture
                none).deleteTextureH (some n),
           { (WebGLUtility.deleteStepRenderbuffer
              (WebGLUtility.deleteStepFramebuffer (st, b))).2 with texture := some none }) := by
      unfold WebGLUtility.deleteStepTexture
      simp [hft, hfv]
    rw [hdef b, hT]
    refine ⟨_, rfl, rfl, ?_, rfl⟩
    simp [GLState.isTexture, GLState.bindTexture, GLState.deleteTextureH, contains_filter_ne]
  · -- idempotence
    intro obj
    match obj with
    | none => rfl
    | some o =>
      rw [hdef o]
      set q := WebGLUtility.deleteStepTexture (WebGLUtility.deleteStepRenderbuffer
        (WebGLUtility.deleteStepFramebuffer (st, o))) with hq
      have hfb : fbGuard q = false := by
        rw [hq, fbGuard_stepT, fbGuard_stepR]
        exact fbGuard_stepF_false _
      have hrb : rbGuard q = false := by
        rw [hq, rbGuard_stepT]
        exact rbGuard_stepR_false _
      have htx : txGuard q = false := txGuard_stepT_false _
      show ((WebGLUtility.deleteStepTexture (WebGLUtility.deleteStepRenderbuffer
          (WebGLUtility.deleteStepFramebuffer (q.1, q.2)))).1,
        some (WebGLUtility.deleteStepTexture (WebGLUtility.deleteStepRenderbuffer
          (WebGLUtility.deleteStepFramebuffer (q.1, q.2)))).2) = (q.1, some q.2)
      have hpair : (q.1, q.2) = q := rfl
      rw [hpair, stepF_of_guard_false hfb, stepR_of_guard_false hrb,
        stepT_of_guard_false htx]

/-- A context state owning framebuffer 1, renderbuffer 2 and texture 3,
used as the concrete input for the release/idempotence witness. -/
def delSt : GLState :=
  { validFramebuffers := [1]
    validRenderbuffers := [2]
    validTextures := [3]
    boundFramebuffer := some 1
    boundRenderbuffer := some 2
    boundTexture := some 3
    renderbufferStorageSize := [(2, 4, 4)]
    textureStorageSize := [(3, 4, 4)] }

/-- The bundle owning those three handles. -/
def delObj : FramebufferBundle :=
  { framebuffer := some (some 1), renderbuffer := some (some 2), texture := some (some 3) }

/-- Witness for C5 on a bundle holding three valid handles. -/
theorem deleteFramebuffer_release_idempotent_witness :
    delObj.framebuffer = some (some 1) ∧ delSt.isFramebuffer (some 1) = true
    ∧ delObj.renderbuffer = some (some 2) ∧ delSt.isRenderbuffer (some 2) = true
    ∧ delObj.texture = some (some 3) ∧ delSt.isTexture (some 3) = true
    ∧ (∃ b2, (WebGLUtility.deleteFramebuffer delSt (some delObj)).2 = some b2
        ∧ b2.framebuffer = some none
        ∧ (WebGLUtility.deleteFramebuffer delSt (some delObj)).1.isFramebuffer (some 1) = false
        ∧ (WebGLUtility.deleteFramebuffer delSt (some delObj)).1.boundFramebuffer = none)
    ∧ (∃ b2, (WebGLUtility.deleteFramebuffer delSt (some delObj)).2 = some b2
        ∧ b2.renderbuffer = some none
        ∧ (WebGLUtility.deleteFramebuffer delSt (some delObj)).1.isRenderbuffer (some 2) = false
        ∧ (WebGLUtility.deleteFramebuffer delSt (some delObj)).1.boundRenderbuffer = none)
    ∧ (∃ b2, (WebGLUtility.deleteFramebuffer delSt (some delObj)).2 = some b2
        ∧ b2.texture = some none
        ∧ (WebGLUtility.deleteFramebuffer delSt (some delObj)).1.isTexture (some 3) = false
        ∧ (WebGLUtility.deleteFramebuffer delSt (some delObj)).1.boundTexture = none)
    ∧ WebGLUtility.deleteFramebuffer (WebGLUtility.deleteFramebuffer delSt (some delObj)).1
        (WebGLUtility.deleteFramebuffer delSt (some delObj)).2
      = WebGLUtility.deleteFramebuffer delSt (some delObj) :=
  ⟨rfl, rfl, rfl, rfl, rfl, rfl,
   (deleteFramebuffer_release_idempotent delSt delObj).1 1 rfl rfl,
   (deleteFramebuffer_release_idempotent delSt delObj).2.1 2 rfl rfl,
   (deleteFramebuffer_release_idempotent delSt delObj).2.2.1 3 rfl rfl,
   (deleteFramebuffer_release_idempotent delSt delObj).2.2.2 (some delObj)⟩

/-- A context state owning one framebuffer, one renderbuffer and one
texture, the renderbuffer and texture with 4×4 backing storage. -/
def resizeSt : GLState :=
  { validFramebuffers := [1]
    validRenderbuffers := [2]
    validTextures := [3]
    boundFramebuffer := none
    boundRenderbuffer := none
    boundTexture := none
    renderbufferStorageSize := [(2, 4, 4)]
    textureStorageSize := [(3, 4, 4)] }

/-- The bundle `createFramebuffer` would return for those handles. -/
def resizeObj : FramebufferBundle :=
  { framebuffer := some (some 1), renderbuffer := some (some 2), texture := some (some 3) }

theorem dispatchUniforms_eq_zipWith {V : Type} :
    ∀ (vs : List V) (ts : List String) (ls : List (Option ℕ)),
      vs.length ≤ ts.length → vs.length ≤ ls.length →
      ShaderProgram.dispatchUniforms vs ts ls
        = (List.zipWith (fun (v : V) (tl : String × Option ℕ) =>
            if strIncludes tl.1 "Matrix" then DispatchCall.matrixCall tl.1 tl.2 false v
            else DispatchCall.plainCall tl.1 tl.2 v) vs (ts.zip ls), none) := by
  intro vs
  induction vs with
  | nil => intro ts ls _ _; rfl
  | cons v vs ih =>
    intro ts ls h1 h2
    cases ts with
    | nil => simp at h1
    | cons t ts =>
      cases ls with
      | nil => simp at h2
      | cons l ls =>
        simp only [ShaderProgram.dispatchUniforms, List.zip_cons_cons, List.zipWith_cons_cons]
        rw [ih ts ls (by simpa using h1) (by simpa using h2)]

/-- C4: `setUniform` is a no-op when no uniforms were declared (nothing
dispatched, no error); when uniforms are declared and the length of the value
list differs from the declared count, it throws before dispatching any
update; when the lengths match, each value is dispatched in order to the
update function named by its parallel tag, with matrix-shaped tags passed
an explicit do-not-transpose flag and all other tags passed the value
directly. -/
theorem setUniform_dispatch {V : Type} (sp : ShaderProgram) (value : List V) :
    (sp.uniform = none → sp.setUniform value = ([], none))
    ∧ (∀ us, sp.uniform = some us → value.length ≠ us.length →
        sp.setUniform value = ([], some "value is an invalid"))
    ∧ (∀ us ts ls, sp.uniform = some us → sp.type = some ts →
        sp.uniformLocation = some ls →
        value.length = us.length → us.length ≤ ts.length → us.length ≤ ls.length →
        sp.setUniform value
          = (List.zipWith (fun (v : V) (tl : String × Option ℕ) =>
              if strIncludes tl.1 "Matrix" then DispatchCall.matrixCall tl.1 tl.2 false v
              else DispatchCall.plainCall tl.1 tl.2 v) value (ts.zip ls), none)) := by
  refine ⟨?_, ?_, ?_⟩
  · intro h
    simp [ShaderProgram.setUniform, h]
  · intro us hu hne
    simp [ShaderProgram.setUniform, hu, hne]
  · intro us ts ls hu ht hl hlen h1 h2
    unfold ShaderProgram.setUniform
    rw [hu, ht, hl]
    simp only [Option.getD_some]
    rw [if_neg (by simp [hlen])]
    exact dispatchUniforms_eq_zipWith value ts ls (by omega) (by omega)

/-- A shader program as the Output Stage constructs it: two declared
uniforms, the second matrix-shaped, with resolved locations. -/
def spW : ShaderProgram :=
  { attr := ["position"]
    stride := [3]
    uniform := some ["uTime", "uMVP"]
    type := some ["uniform1f", "uniformMatrix4fv"]
    program := 5
    attributeLocation := [0]
    uniformLocation := some [some 0, some 1] }

/-- Witness for C4: matching lengths dispatch per-tag (the matrix tag
with a `false` transpose flag), a mismatched length throws with no
dispatch. -/
theorem setUniform_dispatch_witness :
    spW.uniform = some ["uTime", "uMVP"]
    ∧ spW.type = some ["uniform1f", "uniformMatrix4fv"]
    ∧ spW.uniformLocation = some [some 0, some 1]
    ∧ ([7, 9] : List ℕ).length = 2
    ∧ spW.setUniform ([7, 9] : List ℕ)
        = ([DispatchCall.plainCall "uniform1f" (some 0) 7,
            DispatchCall.matrixCall "uniformMatrix4fv" (some 1) false 9], none)
    ∧ spW.setUniform ([7] : List ℕ) = ([], some "value is an invalid") :=
  ⟨rfl, rfl, rfl, rfl,
   by
    rw [(setUniform_dispatch spW ([7, 9] : List ℕ)).2.2
      ["uTime", "uMVP"] ["uniform1f", "uniformMatrix4fv"] [some 0, some 1]
      rfl rfl rfl rfl (by decide) (by decide)]
    rfl,
   (setUniform_dispatch spW ([7] : List ℕ)).2.1 ["uTime", "uMVP"] rfl (by decide)⟩

theorem constructCompile_ok (gpu : GPUEnv) (opt : ShaderProgramOptions)
    (uniform type : Option (List String)) (v f p q : ℕ)
    (hv : gpu.createShader opt.vertexShaderSource ShaderStage.vertex = some v)
    (hf : gpu.createShader opt.fragmentShaderSource ShaderStage.fragment = some f)
    (hp1 : gpu.createProgram v f = some p)
    (hp2 : gpu.createTransformFeedbackProgram v f
        (opt.transformFeedbackVaryings.getD []) = some q) :
    ∃ sp, (ShaderProgram.constructCompile gpu opt uniform type).1 = Except.ok sp := by
  unfold ShaderProgram.constructCompile
  rw [hv, hf]
  by_cases hc : (gpu.isWebGL2 && match opt.transformFeedbackVaryings with
      | some l => decide (0 < l.length)
      | none => false) = true
  · simp only [hc, if_true, hp2]
    exact ⟨_, rfl⟩
  · simp only [Bool.not_eq_true] at hc
    simp only [hc, Bool.false_eq_true, if_false, hp1]
    exact ⟨_, rfl⟩

/-- C3: the `ShaderProgram` constructor validates descriptor pairing
before any GPU call: unequal attribute/stride lengths throw with an empty
GPU-call trace; a declared uniform list without a tag list, a tag list
without a uniform list, or lists of unequal length likewise throw with an
empty trace; equal-length attribute/stride lists together with either
both uniform lists absent or both present at equal length let
construction proceed, and it succeeds whenever both shader stages compile
and the (plain or transform-feedback) link succeeds. -/
theorem construct_validation (gpu : GPUEnv) (opt : ShaderProgramOptions) :
    (opt.attr.length ≠ opt.stride.length →
      ShaderProgram.construct gpu opt
        = (.error "attribute or stride does not match", []))
    ∧ (opt.attr.length = opt.stride.length →
        ((∃ us, opt.uniform = some us ∧ opt.type = none)
          ∨ (∃ ts, opt.uniform = none ∧ opt.type = some ts)
          ∨ (∃ us ts, opt.uniform = some us ∧ opt.type = some ts
              ∧ us.length ≠ ts.length)) →
        ShaderProgram.construct gpu opt
          = (.error "uniform or type does not match", []))
    ∧ (opt.attr.length = opt.stride.length →
        ((opt.uniform = none ∧ opt.type = none)
          ∨ (∃ us ts, opt.uniform = some us ∧ opt.type = some ts
              ∧ us.length = ts.length)) →
        ∀ v f : ℕ,
          gpu.createShader opt.vertexShaderSource ShaderStage.vertex = some v →
          gpu.createShader opt.fragmentShaderSource ShaderStage.fragment = some f →
          ∀ p q : ℕ, gpu.createProgram v f = some p →
            gpu.createTransformFeedbackProgram v f
                (opt.transformFeedbackVaryings.getD []) = some q →
            ∃ sp, (ShaderProgram.construct gpu opt).1 = Except.ok sp) := by
  refine ⟨?_, ?_, ?_⟩
  · intro hne
    unfold ShaderProgram.construct
    rw [if_pos hne]
  · intro heq hbad
    unfold ShaderProgram.construct
    rw [if_neg (fun h => h heq)]
    rcases hbad with ⟨us, hu, ht⟩ | ⟨ts, hu, ht⟩ | ⟨us, ts, hu, ht, hlen⟩
    · rw [hu, ht]
    · rw [hu, ht]
    · rw [hu, ht]
      simp [hlen]
  · intro heq hok v f hv hf p q hp1 hp2
    unfold ShaderProgram.construct
    rw [if_neg (fun h => h heq)]
    rcases hok with ⟨hu, ht⟩ | ⟨us, ts, hu, ht, hlen⟩
    · rw [hu, ht]
      exact constructCompile_ok gpu opt none none v f p q hv hf hp1 hp2
    · rw [hu, ht]
      have hred : (match (some us : Option (List String)), (some ts : Option (List String)) with
          | some us, some ts =>
            if us.length ≠ ts.length then
              ((Except.error "uniform or type does not match" : Except String ShaderProgram),
               ([] : List ProgramGpuCall))
            else ShaderProgram.constructCompile gpu opt (some us) (some ts)
          | some us, none =>
            let _ := us
            (Except.error "uniform or type does not match", [])
          | none, some ts =>
            let _ := ts
            (Except.error "uniform or type does not match", [])
          | none, none => ShaderProgram.constructCompile gpu opt none none)
          = ShaderProgram.constructCompile gpu opt (some us) (some ts) := by
        simp only []
        rw [if_neg (fun h => h hlen)]
      rw [hred]
      exact constructCompile_ok gpu opt (some us) (some ts) v f p q hv hf hp1 hp2

/-- A GPU environment in which every compile and link succeeds. -/
def gpuW : GPUEnv :=
  { isWebGL2 := false
    createShader := fun _ _ => some 1
    createProgram := fun _ _ => some 5
    createTransformFeedbackProgram := fun _ _ _ => some 6
    getAttribLocation := fun _ _ => 0
    getUniformLocation := fun _ _ => some 0 }

/-- A well-paired options record (one attribute, one uniform). -/
def optW : ShaderProgramOptions :=
  { vertexShaderSource := "vs"
    fragmentShaderSource := "fs"
    attr := ["position"]
    stride := [3]
    uniform := some ["uTime"]
    type := some ["uniform1f"]
    transformFeedbackVaryings := none }

/-- The same record with a stride list one entry too long. -/
def optBad : ShaderProgramOptions := { optW with stride := [3, 2] }

/-- Witness for C3: the well-paired record constructs successfully under
an all-succeeding GPU environment, while the mispaired record throws with
an empty GPU-call trace. -/
theorem construct_validation_witness :
    optW.attr.length = optW.stride.length
    ∧ (∃ us ts, optW.uniform = some us ∧ optW.type = some ts ∧ us.length = ts.length)
    ∧ gpuW.createShader optW.vertexShaderSource ShaderStage.vertex = some 1
    ∧ gpuW.createShader optW.fragmentShaderSource ShaderStage.fragment = some 1
    ∧ gpuW.createProgram 1 1 = some 5
    ∧ gpuW.createTransformFeedbackProgram 1 1
        (optW.transformFeedbackVaryings.getD []) = some 6
    ∧ (∃ sp, (ShaderProgram.construct gpuW optW).1 = Except.ok sp)
    ∧ optBad.attr.length ≠ optBad.stride.length
    ∧ ShaderProgram.construct gpuW optBad
        = (.error "attribute or stride does not match", []) :=
  ⟨rfl, ⟨["uTime"], ["uniform1f"], rfl, rfl, rfl⟩, rfl, rfl, rfl, rfl,
   (construct_validation gpuW optW).2.2 rfl
     (Or.inr ⟨["uTime"], ["uniform1f"], rfl, rfl, rfl⟩) 1 1 rfl rfl 5 6 rfl rfl,
   by decide,
   (construct_validation gpuW optBad).1 (by decide)⟩

/-- C1 (code bug): called on a well-formed bundle whose renderbuffer and
texture are valid, `resizeFramebuffer` does not reallocate the passed
backing storage of the passed bundle — after the guards on the argument pass, the
body dereferences the class-level field `WebGLUtility.buffers`, which
does not exist, so the call throws a TypeError and no storage is touched;
only the null-bundle no-op branch behaves as specified. -/
theorem resizeFramebuffer_wrong_object :
    WebGLUtility.resizeFramebuffer resizeSt (some resizeObj) 8 8
      = .error "TypeError: cannot read properties of undefined (reading renderbuffer)"
    ∧ WebGLUtility.buffers = none
    ∧ WebGLUtility.resizeFramebuffer resizeSt none 8 8 = .ok resizeSt := by
  refine ⟨?_, rfl, rfl⟩
  rfl

end GLSL
